import Mathlib

/-!
Shallow embedding of the purchase-lifecycle and access-control flow of the
neurobridge backend (`src/app/src/routes/stripe.py`, `src/app/src/routes/posts.py`,
and the `Purchase` / `PostPurchase` / `Post` models).

Database rows are Lean structures; the database session is a record of row
lists; each route handler is a pure function from its inputs (with the
external processor's responses passed in as values) to the new database
state and its HTTP-level outcome.
-/

namespace Neurobridge

/-- A row of `ariadne.purchases` (src/app/src/models/purchases.py).
`user_id` and `content_id` are string-typed; `status` defaults to "pending". -/
structure Purchase where
  id : Nat
  user_id : String
  content_id : String
  stripe_session_id : Option String
  stripe_payment_intent_id : Option String
  amount : Int
  currency : String
  status : String
deriving DecidableEq, Repr

/-- A row of `ariadne.post_purchases` (src/app/src/models/post_purchases.py).
`user_id` is integer-typed, `post_id` string-typed, `purchase_id` nullable. -/
structure PostPurchase where
  id : Nat
  user_id : Int
  post_id : String
  purchase_id : Option Nat
  amount : Int
  currency : String
deriving DecidableEq, Repr

/-- The fields of `ariadne.posts` (src/app/src/models/post.py) that the
purchase/access flow reads: tier classification, price (a nullable number,
only ever compared with 0), Stripe price handle, and the scheduled
availability timestamp (modelled as an integer instant). -/
structure Post where
  id : String
  tier : String
  price : Option Rat
  stripe_price_id : Option String
  scheduled_time : Int
deriving DecidableEq, Repr

/-- The relational state the flow touches. -/
structure DB where
  purchases : List Purchase
  postPurchases : List PostPurchase
  posts : List Post
deriving DecidableEq, Repr

/-- A Stripe checkout-session object as the code reads it: `id`,
`payment_intent` (nullable string), `payment_status`, `amount_total`,
`currency`. -/
structure StripeSession where
  id : String
  payment_intent : Option String
  payment_status : String
  amount_total : Int
  currency : String
deriving DecidableEq, Repr

/-- A Stripe price object: `unit_amount` (minor units) and `currency`. -/
structure StripePrice where
  unit_amount : Int
  currency : String
deriving DecidableEq, Repr

/-- Python truthiness of a nullable string: `None` and `""` are falsy. -/
def truthy : Option String → Bool
  | none => false
  | some s => s ≠ ""

/-- HTTP-level failure of a route (`HTTPException`). -/
inductive ApiError where
  | badRequest (detail : String)
  | notFound (detail : String)
deriving DecidableEq, Repr

/-- Response body of `/stripe/verify-payment` (`StripeVerifyResponse`). -/
structure VerifyResponse where
  success : Bool
  paymentStatus : String
  amount : Int
  currency : String
deriving DecidableEq, Repr

/-- SQLAlchemy `query(...).filter(f).first()` followed by a mutation `g` of the
returned row: updates the first row satisfying `f` in place, returning the
mutated row and the new table, or `none` when no row matches. -/
def mutateFirst (f : α → Bool) (g : α → α) : List α → Option (α × List α)
  | [] => none
  | p :: ps =>
    if f p then some (g p, g p :: ps)
    else
      match mutateFirst f g ps with
      | none => none
      | some (q, ps') => some (q, p :: ps')

/-- Predicate used by every session-handle lookup:
`Purchase.stripe_session_id == session_id`. -/
def bySession (sid : String) (p : Purchase) : Bool :=
  p.stripe_session_id == some sid

/-- Predicate used by every payment-intent lookup:
`Purchase.stripe_payment_intent_id == payment_intent.id`. -/
def byPaymentIntent (pi : String) (p : Purchase) : Bool :=
  p.stripe_payment_intent_id == some pi

/-- Route `create_checkout_session` (stripe.py lines 125-177).  The two external
calls (`stripe.Price.retrieve`, `stripe.checkout.Session.create`) are passed
in as their results; a `StripeError` from either aborts with a 400 carrying
the processor message, before the local insert.  On success a `pending`
Purchase referencing the session handle is appended. -/
def create_checkout_session
    (priceRes : Except String StripePrice)
    (sessionRes : Except String String)
    (meta_userId meta_contentId : String)
    (newId : Nat) (db : DB) : Except ApiError String × DB :=
  match priceRes with
  | .error e => (.error (.badRequest ("Stripe error: " ++ e)), db)
  | .ok price =>
    match sessionRes with
    | .error e => (.error (.badRequest ("Stripe error: " ++ e)), db)
    | .ok sessionId =>
      let purchase : Purchase :=
        { id := newId
          user_id := meta_userId
          content_id := meta_contentId
          stripe_session_id := some sessionId
          stripe_payment_intent_id := none
          amount := price.unit_amount
          currency := price.currency
          status := "pending" }
      (.ok sessionId, { db with purchases := db.purchases ++ [purchase] })

/-- The row mutation performed by `verify_payment` on the located Purchase
(stripe.py lines 202-211): backfill the payment-intent handle when the
session carries one and the row has none, then set the status from the
processor's `payment_status`. -/
def verifyUpdateRow (session : StripeSession) (p : Purchase) : Purchase :=
  let p := if truthy session.payment_intent && !truthy p.stripe_payment_intent_id
    then { p with stripe_payment_intent_id := session.payment_intent }
    else p
  if session.payment_status == "paid" then { p with status := "completed" }
  else if session.payment_status == "unpaid" then { p with status := "failed" }
  else p

/-- Route `verify_payment` (stripe.py lines 179-235).  The session retrieval result
is passed in; a `StripeError` gives a 400.  The Purchase matching the session
handle is located (404 if absent) and mutated by `verifyUpdateRow`. -/
def verify_payment
    (sessionRes : Except String StripeSession)
    (sessionId : String) (db : DB) : Except ApiError VerifyResponse × DB :=
  match sessionRes with
  | .error e => (.error (.badRequest ("Stripe error: " ++ e)), db)
  | .ok session =>
    match mutateFirst (bySession sessionId) (verifyUpdateRow session) db.purchases with
    | none => (.error (.notFound "Purchase record not found"), db)
    | some (_, purchases') =>
      (.ok { success := session.payment_status == "paid"
             paymentStatus := session.payment_status
             amount := session.amount_total
             currency := session.currency },
       { db with purchases := purchases' })

/-- The row mutation performed by `handle_checkout_session_completed` on the
located Purchase (stripe.py lines 306-308): set the status to `completed`
and overwrite the payment-intent handle when the session carries one. -/
def completedUpdateRow (session : StripeSession) (p : Purchase) : Purchase :=
  let p := { p with status := "completed" }
  if truthy session.payment_intent
    then { p with stripe_payment_intent_id := session.payment_intent }
    else p

/-- Handler `handle_checkout_session_completed` (stripe.py lines 298-342).  Marks the
Purchase matching the session handle `completed`, overwrites the
payment-intent handle when the session carries one, commits, then creates a
`PostPurchase` for `(int(user_id), content_id)` unless one already exists.
`int(user_id)` raising, or the insert failing (`insertOk = false`), is caught
and does not undo the committed status. -/
def handle_checkout_session_completed
    (session : StripeSession) (insertOk : Bool) (newPpId : Nat) (db : DB) : DB :=
  match mutateFirst (bySession session.id) (completedUpdateRow session) db.purchases with
  | none => db
  | some (p, purchases') =>
    let db := { db with purchases := purchases' }
    match p.user_id.toInt? with
    | none => db
    | some uid =>
      match db.postPurchases.find?
          (fun pp => pp.user_id == uid && pp.post_id == p.content_id) with
      | some _ => db
      | none =>
        if insertOk then
          { db with postPurchases := db.postPurchases ++
              [{ id := newPpId
                 user_id := uid
                 post_id := p.content_id
                 purchase_id := some p.id
                 amount := p.amount
                 currency := p.currency }] }
        else db

/-- Handler `handle_checkout_session_expired` (stripe.py lines 344-358): the Purchase
matching the session handle, if any, is set to `expired`. -/
def handle_checkout_session_expired (session : StripeSession) (db : DB) : DB :=
  match mutateFirst (bySession session.id)
      (fun p => { p with status := "expired" }) db.purchases with
  | none => db
  | some (_, purchases') => { db with purchases := purchases' }

/-- Handler `handle_payment_intent_succeeded` (stripe.py lines 360-374): the Purchase
matching the payment-intent handle, if any, is set to `completed`. -/
def handle_payment_intent_succeeded (paymentIntentId : String) (db : DB) : DB :=
  match mutateFirst (byPaymentIntent paymentIntentId)
      (fun p => { p with status := "completed" }) db.purchases with
  | none => db
  | some (_, purchases') => { db with purchases := purchases' }

/-- Handler `handle_payment_intent_failed` (stripe.py lines 376-390): the Purchase
matching the payment-intent handle, if any, is set to `failed`. -/
def handle_payment_intent_failed (paymentIntentId : String) (db : DB) : DB :=
  match mutateFirst (byPaymentIntent paymentIntentId)
      (fun p => { p with status := "failed" }) db.purchases with
  | none => db
  | some (_, purchases') => { db with purchases := purchases' }

/-- An authenticated webhook event, dispatched on `event['type']`
(stripe.py lines 272-285). -/
inductive WebhookEvent where
  | checkoutSessionCompleted (session : StripeSession)
  | checkoutSessionExpired (session : StripeSession)
  | paymentIntentSucceeded (paymentIntentId : String)
  | paymentIntentFailed (paymentIntentId : String)
  | other (eventType : String)
deriving DecidableEq, Repr

/-- Outcome of the signature-verification prelude of `stripe_webhook`
(stripe.py lines 244-269): missing `stripe-signature` header, unparseable
payload (`ValueError`), bad signature (`SignatureVerificationError`), or a
verified event. -/
inductive SigCheck where
  | missingHeader
  | invalidPayload
  | invalidSignature
  | verified (event : WebhookEvent)
deriving DecidableEq, Repr

/-- Route `stripe_webhook` (stripe.py lines 237-296): reject with 400 before any
event handling when the signature prelude fails; otherwise dispatch to the
per-event handler and answer `{"status": "success"}` — the handlers swallow
their own exceptions, so a verified event always gets the success
acknowledgment. -/
def stripe_webhook (sig : SigCheck) (insertOk : Bool) (newPpId : Nat)
    (db : DB) : Except ApiError String × DB :=
  match sig with
  | .missingHeader => (.error (.badRequest "Missing stripe-signature header"), db)
  | .invalidPayload => (.error (.badRequest "Invalid payload"), db)
  | .invalidSignature => (.error (.badRequest "Invalid signature"), db)
  | .verified event =>
    match event with
    | .checkoutSessionCompleted s =>
      (.ok "success", handle_checkout_session_completed s insertOk newPpId db)
    | .checkoutSessionExpired s =>
      (.ok "success", handle_checkout_session_expired s db)
    | .paymentIntentSucceeded pi =>
      (.ok "success", handle_payment_intent_succeeded pi db)
    | .paymentIntentFailed pi =>
      (.ok "success", handle_payment_intent_failed pi db)
    | .other _ => (.ok "success", db)

/-- Result of `check_post_access` (posts.py lines 264-331), abstracting the
JSON bodies by their `hasAccess`/`reason` content. -/
inductive AccessResult where
  | postNotFound
  | notAvailableYet
  | grantedFree
  | grantedPurchased (purchaseId : Nat)
  | deniedNotPurchased
deriving DecidableEq, Repr

/-- Route `check_post_access` (posts.py lines 264-331): 404 when the post is
missing; 404 "Post not available yet" when `scheduled_time` is strictly in
the future; free access when `tier == "free"` or the price is 0 or NULL;
otherwise granted exactly when a `completed` Purchase row matches
`(user_id, content_id)`. -/
def check_post_access (postId userId : String) (now : Int) (db : DB) : AccessResult :=
  match db.posts.find? (fun q => q.id == postId) with
  | none => .postNotFound
  | some post =>
    if post.scheduled_time > now then .notAvailableYet
    else if post.tier == "free" || post.price == some 0 || post.price == none then
      .grantedFree
    else
      match db.purchases.find?
          (fun p => p.user_id == userId && p.content_id == postId
            && p.status == "completed") with
      | some purchase => .grantedPurchased purchase.id
      | none => .deniedNotPurchased

/-- The status value each webhook event kind writes to its matching
Purchase (stripe.py lines 306, 352, 368, 384). -/
def eventTargetStatus : WebhookEvent → Option String
  | .checkoutSessionCompleted _ => some "completed"
  | .checkoutSessionExpired _ => some "expired"
  | .paymentIntentSucceeded _ => some "completed"
  | .paymentIntentFailed _ => some "failed"
  | .other _ => none

/-- The (user, content) match used on the fulfillment table
(stripe.py lines 317-320). -/
def pairPred (uid : Int) (pid : String) (pp : PostPurchase) : Bool :=
  pp.user_id == uid && pp.post_id == pid

/-- Number of fulfillment records for one (user, content) pair. -/
def pairCount (db : DB) (uid : Int) (pid : String) : Nat :=
  (db.postPurchases.filter (pairPred uid pid)).length

/-! ### Concrete instances used by counterexamples -/

/-- A Purchase already in the terminal status `completed`. -/
def pC1 : Purchase := ⟨1, "7", "post1", some "s1", none, 2000, "usd", "completed"⟩

/-- A database whose only Purchase is `pC1`. -/
def dbC1 : DB := ⟨[pC1], [], []⟩

/-- A `checkout.session.expired` event payload for `pC1`'s session. -/
def sessC1 : StripeSession := ⟨"s1", none, "unpaid", 0, "usd"⟩

/-- A paid, already-available post. -/
def postC4 : Post := ⟨"post1", "premium", some 2000, some "price_1", 0⟩

/-- A database with a `completed` Purchase for (`"7"`, `"post1"`) and no
fulfillment (`PostPurchase`) record at all. -/
def dbC4 : DB := ⟨[⟨1, "7", "post1", some "s1", none, 2000, "usd", "completed"⟩], [], [postC4]⟩

/-! ### Helper lemmas about `mutateFirst` -/

theorem mutateFirst_eq_none {α : Type} {f : α → Bool} {g : α → α} {l : List α} :
    mutateFirst f g l = none ↔ ∀ x ∈ l, f x = false := by
  induction l with
  | nil => simp [mutateFirst]
  | cons a as ih =>
    by_cases ha : f a
    · simp [mutateFirst, ha]
    · cases h : mutateFirst f g as with
      | none =>
        simp only [mutateFirst, ha, if_false, h]
        simp only [List.mem_cons]
        constructor
        · intro _ x hx
          rcases hx with rfl | hx
          · exact Bool.eq_false_iff.mpr ha
          · exact ih.mp h x hx
        · intro _; rfl
      | some qp =>
        simp only [mutateFirst, ha, if_false, h]
        constructor
        · intro hc; cases hc
        · intro hall
          exfalso
          have : mutateFirst f g as = none := by
            exact ih.mpr (fun x hx => hall x (List.mem_cons_of_mem a hx))
          rw [this] at h; cases h

theorem mutateFirst_spec {α : Type} {f : α → Bool} {g : α → α} {l : List α} {p : α}
    (h : l.find? f = some p) :
    ∃ l₁ l₂, l = l₁ ++ p :: l₂ ∧ (∀ x ∈ l₁, f x = false) ∧ f p = true ∧
      mutateFirst f g l = some (g p, l₁ ++ g p :: l₂) := by
  induction l with
  | nil => cases h
  | cons a as ih =>
    by_cases ha : f a
    · rw [List.find?_cons_of_pos _ ha] at h
      cases h
      exact ⟨[], as, rfl, fun x hx => absurd hx (List.not_mem_nil x), ha,
        by simp [mutateFirst, ha]⟩
    · rw [List.find?_cons_of_neg _ ha] at h
      obtain ⟨l₁, l₂, hsplit, hfail, hp, hmut⟩ := ih h
      refine ⟨a :: l₁, l₂, by rw [hsplit]; rfl, ?_, hp, ?_⟩
      · intro x hx
        rcases List.mem_cons.mp hx with rfl | hx
        · exact Bool.eq_false_iff.mpr ha
        · exact hfail x hx
      · simp [mutateFirst, ha, hmut]

theorem mutateFirst_of_find?_none {α : Type} {f : α → Bool} {g : α → α} {l : List α}
    (h : l.find? f = none) : mutateFirst f g l = none := by
  rw [mutateFirst_eq_none]
  intro x hx
  exact Bool.eq_false_iff.mpr (List.find?_eq_none.mp h x hx)

theorem find?_append_of_forall_false {α : Type} {f : α → Bool} {l₁ l₂ : List α} {y : α}
    (h : ∀ x ∈ l₁, f x = false) (hy : f y = true) :
    (l₁ ++ y :: l₂).find? f = some y := by
  induction l₁ with
  | nil => simp [List.find?_cons_of_pos _ hy]
  | cons a as ih =>
    have ha : f a = false := h a (List.mem_cons_self a as)
    simp only [List.cons_append]
    rw [List.find?_cons_of_neg _ (by simp [ha])]
    exact ih (fun x hx => h x (List.mem_cons_of_mem a hx))

theorem mem_of_mem_split {α : Type} {l₁ l₂ : List α} {p x : α}
    (hx : x ∈ l₁ ++ p :: l₂) : x ∈ l₁ ∨ x = p ∨ x ∈ l₂ := by
  rcases List.mem_append.mp hx with h | h
  · exact Or.inl h
  · rcases List.mem_cons.mp h with h | h
    · exact Or.inr (Or.inl h)
    · exact Or.inr (Or.inr h)

theorem verifyUpdateRow_status (session : StripeSession) (p : Purchase) :
    (verifyUpdateRow session p).status =
      if session.payment_status = "paid" then "completed"
      else if session.payment_status = "unpaid" then "failed" else p.status := by
  unfold verifyUpdateRow
  by_cases h1 : session.payment_status = "paid" <;>
    by_cases h2 : session.payment_status = "unpaid" <;>
    by_cases h3 : truthy session.payment_intent && !truthy p.stripe_payment_intent_id <;>
    simp [h1, h2, h3]

theorem verifyUpdateRow_pi (session : StripeSession) (p : Purchase) :
    (verifyUpdateRow session p).stripe_payment_intent_id =
      if truthy session.payment_intent && !truthy p.stripe_payment_intent_id
      then session.payment_intent else p.stripe_payment_intent_id := by
  unfold verifyUpdateRow
  by_cases h1 : session.payment_status = "paid" <;>
    by_cases h2 : session.payment_status = "unpaid" <;>
    by_cases h3 : truthy session.payment_intent && !truthy p.stripe_payment_intent_id <;>
    simp [h1, h2, h3]

theorem verifyUpdateRow_frame (session : StripeSession) (p : Purchase) :
    (verifyUpdateRow session p).id = p.id ∧
    (verifyUpdateRow session p).user_id = p.user_id ∧
    (verifyUpdateRow session p).content_id = p.content_id ∧
    (verifyUpdateRow session p).stripe_session_id = p.stripe_session_id ∧
    (verifyUpdateRow session p).amount = p.amount ∧
    (verifyUpdateRow session p).currency = p.currency := by
  unfold verifyUpdateRow
  by_cases h1 : session.payment_status = "paid" <;>
    by_cases h2 : session.payment_status = "unpaid" <;>
    by_cases h3 : truthy session.payment_intent && !truthy p.stripe_payment_intent_id <;>
    simp [h1, h2, h3]

theorem completedUpdateRow_status (session : StripeSession) (p : Purchase) :
    (completedUpdateRow session p).status = "completed" := by
  unfold completedUpdateRow
  by_cases h : truthy session.payment_intent <;> simp [h]

theorem completedUpdateRow_frame (session : StripeSession) (p : Purchase) :
    (completedUpdateRow session p).id = p.id ∧
    (completedUpdateRow session p).user_id = p.user_id ∧
    (completedUpdateRow session p).content_id = p.content_id ∧
    (completedUpdateRow session p).stripe_session_id = p.stripe_session_id ∧
    (completedUpdateRow session p).amount = p.amount ∧
    (completedUpdateRow session p).currency = p.currency := by
  unfold completedUpdateRow
  by_cases h : truthy session.payment_intent <;> simp [h]

theorem handle_completed_purchases_eq (session : StripeSession) (insertOk : Bool)
    (k : Nat) (db : DB) {q : Purchase} {l' : List Purchase}
    (hmut : mutateFirst (bySession session.id) (completedUpdateRow session)
      db.purchases = some (q, l')) :
    (handle_checkout_session_completed session insertOk k db).purchases = l' := by
  simp only [handle_checkout_session_completed, hmut]
  (repeat' split) <;> rfl

theorem handle_completed_of_none (session : StripeSession) (insertOk : Bool)
    (k : Nat) (db : DB)
    (hmut : mutateFirst (bySession session.id) (completedUpdateRow session)
      db.purchases = none) :
    handle_checkout_session_completed session insertOk k db = db := by
  simp only [handle_checkout_session_completed, hmut]

theorem mutateFirst_some_spec {α : Type} {f : α → Bool} {g : α → α}
    {l l' : List α} {q : α} (h : mutateFirst f g l = some (q, l')) :
    ∃ l₁ p l₂, l = l₁ ++ p :: l₂ ∧ l' = l₁ ++ g p :: l₂ ∧ f p = true ∧ q = g p ∧
      ∀ x ∈ l₁, f x = false := by
  induction l generalizing q l' with
  | nil => cases h
  | cons a as ih =>
    by_cases ha : f a
    · simp only [mutateFirst, ha, if_true] at h
      obtain ⟨h1, h2⟩ := Prod.mk.injEq .. ▸ Option.some.injEq .. ▸ h
      exact ⟨[], a, as, rfl, by simp [← h2], ha, h1.symm, fun x hx => absurd hx (List.not_mem_nil x)⟩
    · simp only [mutateFirst, ha, if_false] at h
      cases hm : mutateFirst f g as with
      | none => rw [hm] at h; cases h
      | some qp =>
        rw [hm] at h
        obtain ⟨q0, l0⟩ := qp
        obtain ⟨h1, h2⟩ := Prod.mk.injEq .. ▸ Option.some.injEq .. ▸ h
        obtain ⟨l₁, p, l₂, hsplit, hl', hp, hq, hfail⟩ := ih hm
        refine ⟨a :: l₁, p, l₂, by rw [hsplit]; rfl, ?_, hp, by rw [← h1, hq], ?_⟩
        · rw [← h2, hl']; rfl
        · intro x hx
          rcases List.mem_cons.mp hx with rfl | hx
          · exact Bool.eq_false_iff.mpr ha
          · exact hfail x hx

theorem mem_mutateFirst_some {α : Type} {f : α → Bool} {g : α → α}
    {l l' : List α} {q x : α} (h : mutateFirst f g l = some (q, l')) (hx : x ∈ l) :
    x ∈ l' ∨ (g x ∈ l' ∧ f x = true) := by
  obtain ⟨l₁, p, l₂, hsplit, hl', hp, -, -⟩ := mutateFirst_some_spec h
  subst hsplit
  subst hl'
  rcases mem_of_mem_split hx with hx1 | rfl | hx2
  · exact Or.inl (List.mem_append_left _ hx1)
  · exact Or.inr ⟨List.mem_append_right _ (List.mem_cons_self _ _), hp⟩
  · exact Or.inl (List.mem_append_right _ (List.mem_cons_of_mem _ hx2))

theorem handle_expired_postPurchases (session : StripeSession) (db : DB) :
    (handle_checkout_session_expired session db).postPurchases = db.postPurchases ∧
    (handle_checkout_session_expired session db).posts = db.posts := by
  unfold handle_checkout_session_expired
  cases hm : mutateFirst (bySession session.id)
      (fun p => { p with status := "expired" }) db.purchases with
  | none => exact ⟨rfl, rfl⟩
  | some qp => exact ⟨rfl, rfl⟩

theorem handle_pi_succeeded_postPurchases (pi : String) (db : DB) :
    (handle_payment_intent_succeeded pi db).postPurchases = db.postPurchases ∧
    (handle_payment_intent_succeeded pi db).posts = db.posts := by
  unfold handle_payment_intent_succeeded
  cases hm : mutateFirst (byPaymentIntent pi)
      (fun p => { p with status := "completed" }) db.purchases with
  | none => exact ⟨rfl, rfl⟩
  | some qp => exact ⟨rfl, rfl⟩

theorem handle_pi_failed_postPurchases (pi : String) (db : DB) :
    (handle_payment_intent_failed pi db).postPurchases = db.postPurchases ∧
    (handle_payment_intent_failed pi db).posts = db.posts := by
  unfold handle_payment_intent_failed
  cases hm : mutateFirst (byPaymentIntent pi)
      (fun p => { p with status := "failed" }) db.purchases with
  | none => exact ⟨rfl, rfl⟩
  | some qp => exact ⟨rfl, rfl⟩

theorem handle_completed_postPurchases (session : StripeSession) (insertOk : Bool)
    (k : Nat) (db : DB) :
    (handle_checkout_session_completed session insertOk k db).postPurchases
      = db.postPurchases ∨
    ∃ q l' uid0,
      mutateFirst (bySession session.id) (completedUpdateRow session) db.purchases
        = some (q, l') ∧
      q.user_id.toInt? = some uid0 ∧
      db.postPurchases.find?
        (fun pp => pp.user_id == uid0 && pp.post_id == q.content_id) = none ∧
      insertOk = true ∧
      (handle_checkout_session_completed session insertOk k db).postPurchases =
        db.postPurchases ++ [⟨k, uid0, q.content_id, some q.id, q.amount, q.currency⟩] := by
  cases hm : mutateFirst (bySession session.id) (completedUpdateRow session)
      db.purchases with
  | none =>
    exact Or.inl (by rw [handle_completed_of_none session insertOk k db hm])
  | some qp =>
    obtain ⟨q, l'⟩ := qp
    cases hu : q.user_id.toInt? with
    | none =>
      refine Or.inl ?_
      simp only [handle_checkout_session_completed, hm, hu]
    | some uid0 =>
      cases hf : db.postPurchases.find?
          (fun pp => pp.user_id == uid0 && pp.post_id == q.content_id) with
      | some pp0 =>
        refine Or.inl ?_
        simp only [handle_checkout_session_completed, hm, hu, hf]
      | none =>
        cases insertOk with
        | false =>
          refine Or.inl ?_
          simp only [handle_checkout_session_completed, hm, hu, hf]
          rfl
        | true =>
          refine Or.inr ⟨q, l', uid0, rfl, hu, hf, rfl, ?_⟩
          simp only [handle_checkout_session_completed, hm, hu, hf]
          rfl

/-! ### Claim theorems -/

/-- C5: a verification pull whose session handle matches no Purchase fails
with the not-found error and leaves the database unchanged; otherwise the
matching Purchase row is updated in place: its status becomes `completed`
when the processor reports `paid` and `failed` when it reports `unpaid`
(otherwise unchanged), the payment-intent handle is backfilled exactly when
the session carries one and the row lacks one, and every other field of the
row — and every other row — is unchanged. -/
theorem C5_verify_payment (session : StripeSession) (sid : String) (db : DB) :
    (db.purchases.find? (bySession sid) = none →
      verify_payment (.ok session) sid db =
        (.error (.notFound "Purchase record not found"), db)) ∧
    (∀ p, db.purchases.find? (bySession sid) = some p →
      ∃ l₁ l₂, db.purchases = l₁ ++ p :: l₂ ∧
        (verify_payment (.ok session) sid db).2 =
          { db with purchases := l₁ ++ verifyUpdateRow session p :: l₂ } ∧
        (verifyUpdateRow session p).status =
          (if session.payment_status = "paid" then "completed"
           else if session.payment_status = "unpaid" then "failed" else p.status) ∧
        (verifyUpdateRow session p).stripe_payment_intent_id =
          (if truthy session.payment_intent && !truthy p.stripe_payment_intent_id
           then session.payment_intent else p.stripe_payment_intent_id) ∧
        (verifyUpdateRow session p).id = p.id ∧
        (verifyUpdateRow session p).user_id = p.user_id ∧
        (verifyUpdateRow session p).content_id = p.content_id ∧
        (verifyUpdateRow session p).stripe_session_id = p.stripe_session_id ∧
        (verifyUpdateRow session p).amount = p.amount ∧
        (verifyUpdateRow session p).currency = p.currency) := by
  constructor
  · intro h
    simp [verify_payment, mutateFirst_of_find?_none h]
  · intro p h
    obtain ⟨l₁, l₂, hsplit, _, _, hmut⟩ :=
      mutateFirst_spec (g := verifyUpdateRow session) h
    obtain ⟨f1, f2, f3, f4, f5, f6⟩ := verifyUpdateRow_frame session p
    exact ⟨l₁, l₂, hsplit, by simp [verify_payment, hmut],
      verifyUpdateRow_status session p, verifyUpdateRow_pi session p,
      f1, f2, f3, f4, f5, f6⟩

/-- C5 witness: concrete instance — a Purchase matching session `s1` and an
`unpaid` processor report; the theorem applies and its hypotheses hold. -/
theorem C5_verify_payment_witness :
    let p : Purchase := ⟨1, "7", "post1", some "s1", none, 2000, "usd", "pending"⟩
    let db : DB := ⟨[p], [], []⟩
    let session : StripeSession := ⟨"s1", some "pi_1", "unpaid", 2000, "usd"⟩
    db.purchases.find? (bySession "s1") = some p ∧
    ∃ l₁ l₂, db.purchases = l₁ ++ p :: l₂ ∧
      (verify_payment (.ok session) "s1" db).2 =
        { db with purchases := l₁ ++ verifyUpdateRow session p :: l₂ } ∧
      (verifyUpdateRow session p).status =
        (if session.payment_status = "paid" then "completed"
         else if session.payment_status = "unpaid" then "failed" else p.status) ∧
      (verifyUpdateRow session p).stripe_payment_intent_id =
        (if truthy session.payment_intent && !truthy p.stripe_payment_intent_id
         then session.payment_intent else p.stripe_payment_intent_id) ∧
      (verifyUpdateRow session p).id = p.id ∧
      (verifyUpdateRow session p).user_id = p.user_id ∧
      (verifyUpdateRow session p).content_id = p.content_id ∧
      (verifyUpdateRow session p).stripe_session_id = p.stripe_session_id ∧
      (verifyUpdateRow session p).amount = p.amount ∧
      (verifyUpdateRow session p).currency = p.currency :=
  ⟨by decide,
   (C5_verify_payment ⟨"s1", some "pi_1", "unpaid", 2000, "usd"⟩ "s1"
      ⟨[⟨1, "7", "post1", some "s1", none, 2000, "usd", "pending"⟩], [], []⟩).2
     ⟨1, "7", "post1", some "s1", none, 2000, "usd", "pending"⟩ (by decide)⟩

/-- C6: once the signature check passes, the webhook endpoint answers
`success` whatever the event and whatever the downstream outcome (including
a failing fulfillment insert, `insertOk = false`); and a
`payment_intent.payment_failed` event whose handle matches no Purchase
leaves the database unchanged while still answering `success`. -/
theorem C6_webhook_ack (e : WebhookEvent) (insertOk : Bool) (k : Nat) (db : DB)
    (pi : String) :
    (stripe_webhook (.verified e) insertOk k db).1 = .ok "success" ∧
    ((∀ p ∈ db.purchases, p.stripe_payment_intent_id ≠ some pi) →
      stripe_webhook (.verified (.paymentIntentFailed pi)) insertOk k db =
        (.ok "success", db)) := by
  constructor
  · cases e <;> rfl
  · intro h
    have hnone : mutateFirst (byPaymentIntent pi)
        (fun p => { p with status := "failed" }) db.purchases = none := by
      rw [mutateFirst_eq_none]
      intro x hx
      simp only [byPaymentIntent, beq_eq_false_iff_ne, ne_eq]
      exact h x hx
    simp [stripe_webhook, handle_payment_intent_failed, hnone]

/-- C6 witness: a database whose only Purchase has no payment-intent handle;
an unmatched `payment_intent.payment_failed` event is acknowledged with
`success` and changes nothing. -/
theorem C6_webhook_ack_witness :
    let db : DB := ⟨[⟨1, "7", "post1", some "s1", none, 2000, "usd", "pending"⟩], [], []⟩
    (stripe_webhook (.verified (.paymentIntentFailed "pi_9")) true 0 db).1 = .ok "success" ∧
    stripe_webhook (.verified (.paymentIntentFailed "pi_9")) true 0 db = (.ok "success", db) :=
  ⟨(C6_webhook_ack (.paymentIntentFailed "pi_9") true 0
      ⟨[⟨1, "7", "post1", some "s1", none, 2000, "usd", "pending"⟩], [], []⟩ "pi_9").1,
   (C6_webhook_ack (.paymentIntentFailed "pi_9") true 0
      ⟨[⟨1, "7", "post1", some "s1", none, 2000, "usd", "pending"⟩], [], []⟩ "pi_9").2
     (by decide)⟩

/-- C7: when the external processor call of checkout initiation fails —
the price retrieval or the session creation returns a `StripeError` — the
route raises a bad-request error carrying the processor's message and the
database is unchanged: no Purchase row is persisted. -/
theorem C7_checkout_failure (priceRes : Except String StripePrice)
    (sessionRes : Except String String) (mu mc : String) (k : Nat) (db : DB) :
    (∀ e, priceRes = .error e →
      create_checkout_session priceRes sessionRes mu mc k db =
        (.error (.badRequest ("Stripe error: " ++ e)), db)) ∧
    (∀ price e, priceRes = .ok price → sessionRes = .error e →
      create_checkout_session priceRes sessionRes mu mc k db =
        (.error (.badRequest ("Stripe error: " ++ e)), db)) := by
  constructor
  · intro e he
    subst he
    rfl
  · intro price e hp hs
    subst hp
    subst hs
    rfl

/-- C7 witness: both failure modes at a concrete database. -/
theorem C7_checkout_failure_witness :
    let db : DB := ⟨[], [], []⟩
    create_checkout_session (.error "No such price") (.ok "s1") "7" "post1" 1 db =
      (.error (.badRequest "Stripe error: No such price"), db) ∧
    create_checkout_session (.ok ⟨2000, "usd"⟩) (.error "down") "7" "post1" 1 db =
      (.error (.badRequest "Stripe error: down"), db) :=
  ⟨(C7_checkout_failure (.error "No such price") (.ok "s1") "7" "post1" 1
      ⟨[], [], []⟩).1 "No such price" rfl,
   (C7_checkout_failure (.ok ⟨2000, "usd"⟩) (.error "down") "7" "post1" 1
      ⟨[], [], []⟩).2 ⟨2000, "usd"⟩ "down" rfl rfl⟩

/-- C8: an inbound webhook with a missing signature header, an invalid
signature, or an unparseable payload is rejected with a 400-level client
error, no event is processed, and the purchase and fulfillment state is
unchanged. -/
theorem C8_webhook_reject (insertOk : Bool) (k : Nat) (db : DB) :
    stripe_webhook .missingHeader insertOk k db =
      (.error (.badRequest "Missing stripe-signature header"), db) ∧
    stripe_webhook .invalidPayload insertOk k db =
      (.error (.badRequest "Invalid payload"), db) ∧
    stripe_webhook .invalidSignature insertOk k db =
      (.error (.badRequest "Invalid signature"), db) :=
  ⟨rfl, rfl, rfl⟩

/-- C3: for an existing post, the access check returns "not available yet"
whenever the scheduled-availability timestamp is strictly in the future —
regardless of tier, price, purchases or fulfillment records, so this denial
takes precedence over free access; and when the post is not scheduled in the
future, a free post (tier `free`, or price zero or absent) is granted
regardless of any purchase or fulfillment state. -/
theorem C3_access_schedule_free (postId userId : String) (now : Int) (db : DB)
    (post : Post) (hfind : db.posts.find? (fun q => q.id == postId) = some post) :
    (post.scheduled_time > now →
      check_post_access postId userId now db = .notAvailableYet) ∧
    (¬ post.scheduled_time > now →
      (post.tier = "free" ∨ post.price = some 0 ∨ post.price = none) →
      check_post_access postId userId now db = .grantedFree) := by
  constructor
  · intro h
    simp [check_post_access, hfind, h]
  · intro h hfree
    have hcond : (post.tier == "free" || post.price == some 0 || post.price == none)
        = true := by
      rcases hfree with h1 | h1 | h1 <;> simp [h1]
    simp [check_post_access, hfind, h, hcond]

/-- C3 witness: a future-scheduled free post is denied as not yet available,
and a past-scheduled free post is granted as free content, in a database
with no purchases and no fulfillment records. -/
theorem C3_access_schedule_free_witness :
    let post1 : Post := ⟨"post1", "free", none, none, 200⟩
    let post2 : Post := ⟨"post2", "premium", some 0, none, 50⟩
    let db : DB := ⟨[], [], [post1, post2]⟩
    check_post_access "post1" "7" 100 db = .notAvailableYet ∧
    check_post_access "post2" "7" 100 db = .grantedFree :=
  ⟨(C3_access_schedule_free "post1" "7" 100
      ⟨[], [], [⟨"post1", "free", none, none, 200⟩, ⟨"post2", "premium", some 0, none, 50⟩]⟩
      ⟨"post1", "free", none, none, 200⟩ (by decide)).1 (by decide),
   (C3_access_schedule_free "post2" "7" 100
      ⟨[], [], [⟨"post1", "free", none, none, 200⟩, ⟨"post2", "premium", some 0, none, 50⟩]⟩
      ⟨"post2", "premium", some 0, none, 50⟩ (by decide)).2 (by decide)
      (Or.inr (Or.inl rfl))⟩

/-- C4 counterexample: in `dbC4` there is no fulfillment (`PostPurchase`)
record at all, yet the access check for the paid, available post grants
access — because the code decides access from the `Purchase` table, not from
fulfillment records.  This refutes the claim that access is granted exactly
when a matching fulfillment record exists. -/
theorem C4_counterexample :
    dbC4.postPurchases = [] ∧
    postC4.tier ≠ "free" ∧ postC4.price = some 2000 ∧ postC4.scheduled_time ≤ 100 ∧
    check_post_access "post1" "7" 100 dbC4 = .grantedPurchased 1 := by
  refine ⟨rfl, by decide, ?_, by decide, ?_⟩
  · rfl
  · rfl

/-- C4 as amended: for a paid, already-available post, the access check
grants access exactly when a `Purchase` row with that user id and content id
in `completed` status exists (returning that row's id), and denies access
otherwise; the fulfillment (`PostPurchase`) table is never consulted — the
result is invariant under replacing the fulfillment table wholesale. -/
theorem C4_access_paid_amended (postId userId : String) (now : Int) (db : DB)
    (post : Post) (hfind : db.posts.find? (fun q => q.id == postId) = some post)
    (hsched : ¬ post.scheduled_time > now)
    (hpaid : (post.tier == "free" || post.price == some 0 || post.price == none)
      = false) :
    (∀ pu, db.purchases.find?
        (fun p => p.user_id == userId && p.content_id == postId
          && p.status == "completed") = some pu →
      check_post_access postId userId now db = .grantedPurchased pu.id) ∧
    (db.purchases.find?
        (fun p => p.user_id == userId && p.content_id == postId
          && p.status == "completed") = none →
      check_post_access postId userId now db = .deniedNotPurchased) ∧
    (∀ pps, check_post_access postId userId now { db with postPurchases := pps } =
      check_post_access postId userId now db) := by
  refine ⟨?_, ?_, fun pps => rfl⟩
  · intro pu hpu
    simp [check_post_access, hfind, hsched, hpaid, hpu]
  · intro hnone
    simp [check_post_access, hfind, hsched, hpaid, hnone]

/-- C4 amended witness: the concrete state of the counterexample — access is
granted from the completed Purchase row, and the result is unchanged when a
fulfillment table is supplied. -/
theorem C4_access_paid_amended_witness :
    check_post_access "post1" "7" 100 dbC4 = .grantedPurchased 1 ∧
    check_post_access "post1" "7" 100
      { dbC4 with postPurchases := [⟨9, 7, "post1", none, 2000, "usd"⟩] } =
      check_post_access "post1" "7" 100 dbC4 :=
  ⟨(C4_access_paid_amended "post1" "7" 100 dbC4 postC4 (by decide) (by decide)
      (by decide)).1
      ⟨1, "7", "post1", some "s1", none, 2000, "usd", "completed"⟩ (by decide),
   (C4_access_paid_amended "post1" "7" 100 dbC4 postC4 (by decide) (by decide)
      (by decide)).2.2 [⟨9, 7, "post1", none, 2000, "usd"⟩]⟩

/-- C9: when the `checkout.session.completed` handler finds a matching
Purchase, that Purchase ends up `completed` even when the fulfillment insert
fails (`insertOk = false`) — the committed status update is not rolled
back. -/
theorem C9_fulfillment_failure_keeps_completed (session : StripeSession)
    (insertOk : Bool) (k : Nat) (db : DB) (p : Purchase)
    (hfind : db.purchases.find? (bySession session.id) = some p) :
    ((handle_checkout_session_completed session insertOk k db).purchases.find?
        (bySession session.id)).map Purchase.status = some "completed" := by
  obtain ⟨l₁, l₂, hsplit, hfail, hp, hmut⟩ :=
    mutateFirst_spec (g := completedUpdateRow session) hfind
  have hsess : bySession session.id (completedUpdateRow session p) = true := by
    simp only [bySession, (completedUpdateRow_frame session p).2.2.2.1]
    exact hp
  rw [handle_completed_purchases_eq session insertOk k db hmut,
    find?_append_of_forall_false hfail hsess, Option.map_some',
    completedUpdateRow_status]

/-- C9 witness: a pending Purchase for session `s1`; the completed webhook
with a failing insert still leaves the Purchase `completed`. -/
theorem C9_fulfillment_failure_keeps_completed_witness :
    let db : DB := ⟨[⟨1, "7", "post1", some "s1", none, 2000, "usd", "pending"⟩], [], []⟩
    let session : StripeSession := ⟨"s1", some "pi_1", "paid", 2000, "usd"⟩
    ((handle_checkout_session_completed session false 5 db).purchases.find?
        (bySession "s1")).map Purchase.status = some "completed" :=
  C9_fulfillment_failure_keeps_completed ⟨"s1", some "pi_1", "paid", 2000, "usd"⟩
    false 5 ⟨[⟨1, "7", "post1", some "s1", none, 2000, "usd", "pending"⟩], [], []⟩
    ⟨1, "7", "post1", some "s1", none, 2000, "usd", "pending"⟩ (by decide)

/-- C1 counterexample: `pC1` is already in the terminal status `completed`,
yet delivering a `checkout.session.expired` webhook for its session rewrites
its status to `expired` — a reconciliation operation does change the status
of a Purchase in a terminal state, refuting the claim that no transition is
possible out of a terminal state. -/
theorem C1_counterexample :
    pC1.status = "completed" ∧
    (stripe_webhook (.verified (.checkoutSessionExpired sessC1)) true 0 dbC1).2.purchases
      = [{ pC1 with status := "expired" }] :=
  ⟨rfl, rfl⟩

/-- C1 as amended: every status written by a reconciliation webhook is the
event's target value in {completed, failed, expired} — each Purchase's
status after the event either equals its previous value or the event's
target — and re-applying `completed` to an already-`completed` Purchase
leaves the status `completed`.  The handlers do not guard on the current
status, so a terminal status can still be overwritten by a different target
(see the counterexample). -/
theorem C1_amended_status_writes (e : WebhookEvent) (insertOk : Bool) (k : Nat)
    (db : DB) (q : Purchase) (hq : q ∈ db.purchases) :
    ∃ q', q' ∈ ((stripe_webhook (.verified e) insertOk k db).2).purchases ∧
      q'.id = q.id ∧
      (q'.status = q.status ∨ eventTargetStatus e = some q'.status) ∧
      (q.status = "completed" → eventTargetStatus e = some "completed" →
        q'.status = "completed") := by
  cases e with
  | checkoutSessionCompleted s =>
    cases hm : mutateFirst (bySession s.id) (completedUpdateRow s) db.purchases with
    | none =>
      refine ⟨q, ?_, rfl, Or.inl rfl, fun hc _ => hc⟩
      simp only [stripe_webhook, handle_completed_of_none s insertOk k db hm]
      exact hq
    | some qp =>
      obtain ⟨q0, l'⟩ := qp
      have hpur := handle_completed_purchases_eq s insertOk k db hm
      rcases mem_mutateFirst_some hm hq with hmem | ⟨hmem, hfq⟩
      · refine ⟨q, ?_, rfl, Or.inl rfl, fun hc _ => hc⟩
        simp only [stripe_webhook, hpur]
        exact hmem
      · refine ⟨completedUpdateRow s q, ?_, (completedUpdateRow_frame s q).1,
          Or.inr ?_, fun _ _ => completedUpdateRow_status s q⟩
        · simp only [stripe_webhook, hpur]
          exact hmem
        · rw [completedUpdateRow_status]
          rfl
  | checkoutSessionExpired s =>
    cases hm : mutateFirst (bySession s.id)
        (fun p => { p with status := "expired" }) db.purchases with
    | none =>
      refine ⟨q, ?_, rfl, Or.inl rfl, fun hc _ => hc⟩
      simp only [stripe_webhook, handle_checkout_session_expired, hm]
      exact hq
    | some qp =>
      obtain ⟨q0, l'⟩ := qp
      rcases mem_mutateFirst_some hm hq with hmem | ⟨hmem, hfq⟩
      · refine ⟨q, ?_, rfl, Or.inl rfl, fun hc _ => hc⟩
        simp only [stripe_webhook, handle_checkout_session_expired, hm]
        exact hmem
      · refine ⟨{ q with status := "expired" }, ?_, rfl, Or.inr rfl,
          fun _ ht => absurd (Option.some.inj ht) (by decide)⟩
        simp only [stripe_webhook, handle_checkout_session_expired, hm]
        exact hmem
  | paymentIntentSucceeded pi =>
    cases hm : mutateFirst (byPaymentIntent pi)
        (fun p => { p with status := "completed" }) db.purchases with
    | none =>
      refine ⟨q, ?_, rfl, Or.inl rfl, fun hc _ => hc⟩
      simp only [stripe_webhook, handle_payment_intent_succeeded, hm]
      exact hq
    | some qp =>
      obtain ⟨q0, l'⟩ := qp
      rcases mem_mutateFirst_some hm hq with hmem | ⟨hmem, hfq⟩
      · refine ⟨q, ?_, rfl, Or.inl rfl, fun hc _ => hc⟩
        simp only [stripe_webhook, handle_payment_intent_succeeded, hm]
        exact hmem
      · refine ⟨{ q with status := "completed" }, ?_, rfl, Or.inr rfl,
          fun _ _ => rfl⟩
        simp only [stripe_webhook, handle_payment_intent_succeeded, hm]
        exact hmem
  | paymentIntentFailed pi =>
    cases hm : mutateFirst (byPaymentIntent pi)
        (fun p => { p with status := "failed" }) db.purchases with
    | none =>
      refine ⟨q, ?_, rfl, Or.inl rfl, fun hc _ => hc⟩
      simp only [stripe_webhook, handle_payment_intent_failed, hm]
      exact hq
    | some qp =>
      obtain ⟨q0, l'⟩ := qp
      rcases mem_mutateFirst_some hm hq with hmem | ⟨hmem, hfq⟩
      · refine ⟨q, ?_, rfl, Or.inl rfl, fun hc _ => hc⟩
        simp only [stripe_webhook, handle_payment_intent_failed, hm]
        exact hmem
      · refine ⟨{ q with status := "failed" }, ?_, rfl, Or.inr rfl,
          fun _ ht => absurd (Option.some.inj ht) (by decide)⟩
        simp only [stripe_webhook, handle_payment_intent_failed, hm]
        exact hmem
  | other t =>
    exact ⟨q, hq, rfl, Or.inl rfl, fun hc _ => hc⟩

/-- C1 amended witness: a duplicate `checkout.session.completed` delivery
against an already-`completed` Purchase; the theorem applies and its
hypothesis holds. -/
theorem C1_amended_status_writes_witness :
    ∃ q', q' ∈ ((stripe_webhook
        (.verified (.checkoutSessionCompleted ⟨"s1", none, "paid", 2000, "usd"⟩))
        true 0 dbC1).2).purchases ∧
      q'.id = pC1.id ∧
      (q'.status = pC1.status ∨
        eventTargetStatus (.checkoutSessionCompleted ⟨"s1", none, "paid", 2000, "usd"⟩)
          = some q'.status) ∧
      (pC1.status = "completed" →
        eventTargetStatus (.checkoutSessionCompleted ⟨"s1", none, "paid", 2000, "usd"⟩)
          = some "completed" →
        q'.status = "completed") :=
  C1_amended_status_writes (.checkoutSessionCompleted ⟨"s1", none, "paid", 2000, "usd"⟩)
    true 0 dbC1 pC1 (by decide)

/-- C2: if a (user, content) pair has at most one fulfillment record, it
still has at most one after a `checkout.session.completed` delivery — so any
number of (possibly duplicate) deliveries preserve uniqueness — and any
record the handler creates is for a pair that had no record before. -/
theorem C2_fulfillment_unique (session : StripeSession) (insertOk : Bool) (k : Nat)
    (db : DB) (uid : Int) (pid : String) (h : pairCount db uid pid ≤ 1) :
    pairCount (handle_checkout_session_completed session insertOk k db) uid pid ≤ 1 ∧
    (∀ pp ∈ (handle_checkout_session_completed session insertOk k db).postPurchases,
      pp ∉ db.postPurchases →
      db.postPurchases.find?
        (fun q2 => q2.user_id == pp.user_id && q2.post_id == pp.post_id) = none) := by
  rcases handle_completed_postPurchases session insertOk k db with
    heq | ⟨q, l', uid0, hm, hu, hf, hok, heq⟩
  · constructor
    · unfold pairCount
      rw [heq]
      exact h
    · intro pp hpp hnot
      rw [heq] at hpp
      exact absurd hpp hnot
  · constructor
    · unfold pairCount
      rw [heq, List.filter_append]
      by_cases hmatch :
          pairPred uid pid ⟨k, uid0, q.content_id, some q.id, q.amount, q.currency⟩
      · have huid : uid0 = uid ∧ q.content_id = pid := by
          unfold pairPred at hmatch
          simp only [Bool.and_eq_true, beq_iff_eq] at hmatch
          exact hmatch
        obtain ⟨h1, h2⟩ := huid
        subst h1
        subst h2
        have hempty : db.postPurchases.filter (pairPred uid0 q.content_id) = [] := by
          rw [List.filter_eq_nil_iff]
          intro a ha
          have hfa := List.find?_eq_none.mp hf a ha
          unfold pairPred
          exact hfa
        rw [hempty]
        simp only [List.nil_append]
        exact le_trans (List.length_filter_le _ _) (by simp)
      · rw [List.filter_cons_of_neg hmatch, List.filter_nil, List.append_nil]
        exact h
    · intro pp hpp hnot
      rw [heq] at hpp
      rcases List.mem_append.mp hpp with hin | hin
      · exact absurd hin hnot
      · have : pp = ⟨k, uid0, q.content_id, some q.id, q.amount, q.currency⟩ :=
          List.mem_singleton.mp hin
        subst this
        exact hf

/-- C2 witness: a pending Purchase and an empty fulfillment table — the pair
count stays at most one after the completed delivery. -/
theorem C2_fulfillment_unique_witness :
    let db : DB := ⟨[⟨1, "7", "post1", some "s1", none, 2000, "usd", "pending"⟩], [], []⟩
    let session : StripeSession := ⟨"s1", some "pi_1", "paid", 2000, "usd"⟩
    pairCount db 7 "post1" ≤ 1 ∧
    pairCount (handle_checkout_session_completed session true 5 db) 7 "post1" ≤ 1 :=
  ⟨by decide,
   (C2_fulfillment_unique ⟨"s1", some "pi_1", "paid", 2000, "usd"⟩ true 5
      ⟨[⟨1, "7", "post1", some "s1", none, 2000, "usd", "pending"⟩], [], []⟩
      7 "post1" (by decide)).1⟩

/-- C10: a verified webhook whose event is not `checkout.session.completed`
never changes the fulfillment table — only the completed-session path creates
`PostPurchase` records — and the `payment_intent.succeeded` handler leaves
the fulfillment table unchanged and modifies nothing of any Purchase except
possibly setting the status of the row matching the payment-intent handle to
`completed`. -/
theorem C10_pi_succeeded_frame (e : WebhookEvent) (insertOk : Bool) (k : Nat)
    (db : DB) (pi : String) :
    ((∀ s, e ≠ .checkoutSessionCompleted s) →
      ((stripe_webhook (.verified e) insertOk k db).2).postPurchases
        = db.postPurchases) ∧
    (handle_payment_intent_succeeded pi db).postPurchases = db.postPurchases ∧
    (∀ q ∈ db.purchases, ∃ q',
      q' ∈ (handle_payment_intent_succeeded pi db).purchases ∧
      q'.id = q.id ∧ q'.user_id = q.user_id ∧ q'.content_id = q.content_id ∧
      q'.stripe_session_id = q.stripe_session_id ∧
      q'.stripe_payment_intent_id = q.stripe_payment_intent_id ∧
      q'.amount = q.amount ∧ q'.currency = q.currency ∧
      (q'.status = q.status ∨
        (q'.status = "completed" ∧ q.stripe_payment_intent_id = some pi))) := by
  refine ⟨?_, (handle_pi_succeeded_postPurchases pi db).1, ?_⟩
  · intro hne
    cases e with
    | checkoutSessionCompleted s => exact absurd rfl (hne s)
    | checkoutSessionExpired s => exact (handle_expired_postPurchases s db).1
    | paymentIntentSucceeded pi2 => exact (handle_pi_succeeded_postPurchases pi2 db).1
    | paymentIntentFailed pi2 => exact (handle_pi_failed_postPurchases pi2 db).1
    | other t => rfl
  · intro q hq
    cases hm : mutateFirst (byPaymentIntent pi)
        (fun p => { p with status := "completed" }) db.purchases with
    | none =>
      refine ⟨q, ?_, rfl, rfl, rfl, rfl, rfl, rfl, rfl, Or.inl rfl⟩
      simp only [handle_payment_intent_succeeded, hm]
      exact hq
    | some qp =>
      obtain ⟨q0, l'⟩ := qp
      rcases mem_mutateFirst_some hm hq with hmem | ⟨hmem, hfq⟩
      · refine ⟨q, ?_, rfl, rfl, rfl, rfl, rfl, rfl, rfl, Or.inl rfl⟩
        simp only [handle_payment_intent_succeeded, hm]
        exact hmem
      · refine ⟨{ q with status := "completed" }, ?_, rfl, rfl, rfl, rfl, rfl, rfl,
          rfl, Or.inr ⟨rfl, ?_⟩⟩
        · simp only [handle_payment_intent_succeeded, hm]
          exact hmem
        · simpa [byPaymentIntent] using hfq

/-- C10 witness: a Purchase completed exclusively through the
payment-intent path; the theorem applies, and in particular no fulfillment
record appears. -/
theorem C10_pi_succeeded_frame_witness :
    let db : DB := ⟨[⟨1, "7", "post1", none, some "pi_1", 2000, "usd", "pending"⟩], [], []⟩
    ((stripe_webhook (.verified (.paymentIntentSucceeded "pi_1")) true 0 db).2).postPurchases
      = db.postPurchases ∧
    (handle_payment_intent_succeeded "pi_1" db).postPurchases = db.postPurchases :=
  ⟨(C10_pi_succeeded_frame (.paymentIntentSucceeded "pi_1") true 0
      ⟨[⟨1, "7", "post1", none, some "pi_1", 2000, "usd", "pending"⟩], [], []⟩ "pi_1").1
      (fun _ h => WebhookEvent.noConfusion h),
   (C10_pi_succeeded_frame (.paymentIntentSucceeded "pi_1") true 0
      ⟨[⟨1, "7", "post1", none, some "pi_1", 2000, "usd", "pending"⟩], [], []⟩ "pi_1").2.1⟩

end Neurobridge
